import Mathlib

/-!
Shallow embedding of the SFBAUv2IO duplex audio engine core
(SFBAUv2IO.cpp / SFBAUv2IO.hpp together with the earlier revision kept in
the repository).  Sample times are `Float64` in the source but always hold
exact integral frame counts (the spec's "absolute sample-time" is a
monotonically increasing 64-bit signed count), so they are modelled as `Int`;
all arithmetic performed on them by the engine (differences, sums) is exact.
Buffers are modelled as lists of byte values; external collaborators
(hardware render, file decoding) are modelled as explicit inputs.
-/

/-- One `AudioBuffer` of an `AudioBufferList`: `mData` with
`mDataByteSize` bytes, modelled as the list of byte values. -/
structure AudioBuffer where
  data : List Int
  deriving DecidableEq

/-- `memset(mData, 0, mDataByteSize)` applied to every buffer of an
`AudioBufferList`: each buffer keeps its size and is filled with zeros. -/
def zeroFill (bs : List AudioBuffer) : List AudioBuffer :=
  bs.map fun b => ⟨List.replicate b.data.length 0⟩

/-- Modelled from the spec: `SFBCARingBuffer`, whose implementation is not in
the repository (only its call sites are).  A bounded circular store of frames
addressed by absolute sample-time, publishing bounds `[startTime, endTime)`;
`sample` gives the stored value at an absolute frame time. -/
structure CARingBuffer where
  capacity : Nat
  hasWritten : Bool
  startTime : Int
  endTime : Int
  sample : Int → Int

/-- Modelled from the spec: `Read` succeeds exactly when the requested span
`[timeStamp, timeStamp + frameCount)` is fully covered by
`[startTime, endTime)`; on failure the destination is left untouched. -/
def CARingBuffer.Read (rb : CARingBuffer) (frameCount : Nat) (timeStamp : Int) : Bool :=
  decide (rb.startTime ≤ timeStamp ∧ timeStamp + frameCount ≤ rb.endTime)

/-- Modelled from the spec: the data a successful `Read` copies into the
destination buffers, taken from the ring's store starting at `timeStamp`. -/
def CARingBuffer.readData (rb : CARingBuffer) (timeStamp : Int)
    (dest : List AudioBuffer) : List AudioBuffer :=
  dest.map fun b => ⟨(List.range b.data.length).map fun k => rb.sample (timeStamp + k)⟩

/-- Modelled from the spec: `Write` copies `frameCount` frames beginning at
the given absolute time, advancing `endTime`; writes past capacity silently
advance `startTime` (overrun); a request larger than the capacity fails. -/
def CARingBuffer.Write (rb : CARingBuffer) (src : List Int) (frameCount : Nat)
    (timeStamp : Int) : Option CARingBuffer :=
  if frameCount > rb.capacity then none
  else some { rb with
    hasWritten := true
    startTime := max rb.startTime (timeStamp + frameCount - rb.capacity)
    endTime := timeStamp + frameCount
    sample := fun x =>
      if timeStamp ≤ x ∧ x < timeStamp + frameCount then src.getD (x - timeStamp).toNat 0
      else rb.sample x }

/-- Modelled from the spec: `GetTimeBounds` reports the published bounds;
it always succeeds once at least one `Write` has occurred. -/
def CARingBuffer.GetTimeBounds (rb : CARingBuffer) : Option (Int × Int) :=
  if rb.hasWritten then some (rb.startTime, rb.endTime) else none

/-- `SFBScheduledAudioSlice`: the fields of the `ScheduledAudioSlice` base the
engine uses (`mTimeStamp`, `mNumberFrames`, `mBufferList`) plus the derived
class's atomic `mAvailable` flag.  `bufferList = none` models a null
`mBufferList` pointer; `some` holds the owned per-channel data. -/
structure SFBScheduledAudioSlice where
  timeStamp : Int
  numberFrames : Nat
  bufferList : Option (List (List Int))
  available : Bool
  deriving DecidableEq

/-- The `SFBScheduledAudioSlice` constructor: `memset(this, 0,
sizeof(ScheduledAudioSlice))` then `mAvailable = true`. -/
def SFBScheduledAudioSlice.init : SFBScheduledAudioSlice :=
  { timeStamp := 0, numberFrames := 0, bufferList := none, available := true }

instance : Inhabited SFBScheduledAudioSlice := ⟨SFBScheduledAudioSlice.init⟩

/-- `SFBScheduledAudioSlice::Clear`: frees `mBufferList` and zeroes the
`ScheduledAudioSlice` base; the derived `mAvailable` flag is outside
`sizeof(ScheduledAudioSlice)` and is not touched. -/
def SFBScheduledAudioSlice.Clear (sl : SFBScheduledAudioSlice) : SFBScheduledAudioSlice :=
  { sl with timeStamp := 0, numberFrames := 0, bufferList := none }

/-- `kScheduledAudioSliceCount` = 16. -/
def kScheduledAudioSliceCount : Nat := 16

/-- The slice pool as allocated by the constructors:
`new SFBScheduledAudioSlice[kScheduledAudioSliceCount]`. -/
def initialPool : List SFBScheduledAudioSlice :=
  List.replicate kScheduledAudioSliceCount SFBScheduledAudioSlice.init

/-- The engine state: the Clock Synchronizer fields (`mFirstInputSampleTime`,
`mFirstOutputSampleTime`, `mThroughLatency`), the running state of the two
output units, the input scratch buffer, the ring buffer and the slice pool. -/
structure SFBAUv2IOState where
  firstInputSampleTime : Int
  firstOutputSampleTime : Int
  throughLatency : Int
  inputRunning : Bool
  outputRunning : Bool
  inputBufferList : List Int
  inputRingBuffer : CARingBuffer
  scheduledAudioSlices : List SFBScheduledAudioSlice

/-- `SFBAUv2IO::IsRunning`: `InputIsRunning() || OutputIsRunning()`. -/
def SFBAUv2IOState.IsRunning (s : SFBAUv2IOState) : Bool :=
  s.inputRunning || s.outputRunning

/-- `SFBAUv2IO::Stop` (SFBAUv2IO.cpp lines 809-830): no-op when not running;
otherwise stops both output units, resets the player unit and the recorders
(external collaborators), and sets both first-sample-times back to the unset
sentinel `-1`.  The ring buffer and the slice pool are not touched. -/
def SFBAUv2IOState.Stop (s : SFBAUv2IOState) : SFBAUv2IOState :=
  if s.IsRunning = false then s
  else { s with
    inputRunning := false
    outputRunning := false
    firstInputSampleTime := -1
    firstOutputSampleTime := -1 }

/-- Result of the mixer-input pull callback: the engine state, the contents
written into `ioData`, and whether `kAudioUnitRenderAction_OutputIsSilence`
was set in `ioActionFlags`. -/
structure MixerRenderResult where
  state : SFBAUv2IOState
  ioData : List AudioBuffer
  outputIsSilence : Bool

/-- `SFBAUv2IO::MixerInputRenderCallback` (part_000 lines 703-719): computes
`adjustedTimeStamp = inTimeStamp->mSampleTime - mThroughLatency` and reads
the ring buffer there; on a miss it logs, sets the silence flag, zero-fills
`ioData`, and, when `GetTimeBounds` succeeds, re-derives
`mThroughLatency = inTimeStamp->mSampleTime - startTime`. -/
def SFBAUv2IOState.MixerInputRenderCallback (s : SFBAUv2IOState) (inSampleTime : Int)
    (inNumberFrames : Nat) (ioData : List AudioBuffer) : MixerRenderResult :=
  if s.inputRingBuffer.Read inNumberFrames (inSampleTime - s.throughLatency) then
    { state := s
      ioData := s.inputRingBuffer.readData (inSampleTime - s.throughLatency) ioData
      outputIsSilence := false }
  else
    match s.inputRingBuffer.GetTimeBounds with
    | some (startTime, _endTime) =>
        { state := { s with throughLatency := inSampleTime - startTime }
          ioData := zeroFill ioData
          outputIsSilence := true }
    | none =>
        { state := s, ioData := zeroFill ioData, outputIsSilence := true }

/-- Result of the output render callback: the engine state, the contents of
`ioData`, the silence flag, whether `AudioUnitRender(mMixerUnit, ...)` was
invoked, and whether the one-time `mThroughLatency` adjustment branch ran. -/
structure OutputRenderResult where
  state : SFBAUv2IOState
  ioData : List AudioBuffer
  outputIsSilence : Bool
  mixerRendered : Bool
  latencyAdjusted : Bool

/-- `SFBAUv2IO::OutputRenderCallback` (SFBAUv2IO.cpp lines 1216-1254; the
part_000 revision lines 665-701 differs only in the algebraic form of the
latency adjustment, see `outputLatencyAdjustPrev`).  Before
`mFirstInputSampleTime` is set: silence.  On the first callback after it is
set: record `mFirstOutputSampleTime`, adjust `mThroughLatency` by
`delta = mFirstOutputSampleTime - mFirstInputSampleTime`, and still emit
silence.  Afterwards: render the mixer, which pulls its ring-buffer-fed
input through `MixerInputRenderCallback` (BuildGraph wires mixer input 1 to
that callback; the player input is an external collaborator). -/
def SFBAUv2IOState.OutputRenderCallback (s : SFBAUv2IOState) (inSampleTime : Int)
    (inNumberFrames : Nat) (ioData : List AudioBuffer) : OutputRenderResult :=
  if s.firstInputSampleTime < 0 then
    { state := s, ioData := zeroFill ioData, outputIsSilence := true
      mixerRendered := false, latencyAdjusted := false }
  else if s.firstOutputSampleTime < 0 then
    { state := { s with
        firstOutputSampleTime := inSampleTime
        throughLatency := s.throughLatency + (inSampleTime - s.firstInputSampleTime) }
      ioData := zeroFill ioData, outputIsSilence := true
      mixerRendered := false, latencyAdjusted := true }
  else
    { state := (s.MixerInputRenderCallback inSampleTime inNumberFrames ioData).state
      ioData := (s.MixerInputRenderCallback inSampleTime inNumberFrames ioData).ioData
      outputIsSilence := (s.MixerInputRenderCallback inSampleTime inNumberFrames ioData).outputIsSilence
      mixerRendered := true, latencyAdjusted := false }

/-- One output callback as a state transformer (the state evolution does not
depend on the contents of `ioData`). -/
def outputStep (s : SFBAUv2IOState) (tn : Int × Nat) : SFBAUv2IOState :=
  (s.OutputRenderCallback tn.1 tn.2 []).state

/-- How many callbacks of a run of output callbacks (given by their sample
times and frame counts) take the one-time latency-adjustment branch. -/
def adjustCount : SFBAUv2IOState → List (Int × Nat) → Nat
  | _, [] => 0
  | s, tn :: rest =>
      (if (s.OutputRenderCallback tn.1 tn.2 []).latencyAdjusted then 1 else 0) +
        adjustCount (outputStep s tn) rest

/-- The latency correction of the SFBAUv2IO.cpp revision (lines 1229-1236):
`delta = mFirstOutputSampleTime - mFirstInputSampleTime; mThroughLatency += delta`. -/
def outputLatencyAdjustCpp (throughLatency firstInputSampleTime firstOutputSampleTime : Int) : Int :=
  throughLatency + (firstOutputSampleTime - firstInputSampleTime)

/-- The latency correction of the part_000 revision (lines 678-685):
`delta = mFirstInputTime - mFirstOutputTime; mThroughLatency -= delta`. -/
def outputLatencyAdjustPrev (throughLatency firstInputTime firstOutputTime : Int) : Int :=
  throughLatency - (firstInputTime - firstOutputTime)

/-- Error message of the `std::runtime_error` thrown by `PlayAt` when every
slice is in-flight. -/
def noAvailableSlicesMsg : String := "No available slices"

/-- The scan of `PlayAt` (SFBAUv2IO.cpp lines 869-875): the first index `i`
in order `0, 1, ...` with `mScheduledAudioSlices[i].mAvailable`. -/
def firstAvailableIdx : List SFBScheduledAudioSlice → Option Nat
  | [] => none
  | sl :: rest =>
      if sl.available then some 0 else (firstAvailableIdx rest).map (· + 1)

/-- The slice-pool effect of `SFBAUv2IO::PlayAt` (SFBAUv2IO.cpp lines
860-901), given the decoded file contents `abl` (its per-channel data and
its frame length `abl.FrameLength()`) and the requested start time: scan for
the first available slice; if none, throw `"No available slices"`; otherwise
`Clear` the slice, populate it with the time stamp, frame count and buffer
list, and flip `mAvailable` to false.  (Obtaining the player format, decoding
the file and handing the populated slice to the player unit are external
collaborators.) -/
def PlayAt (pool : List SFBScheduledAudioSlice) (abl : List (List Int))
    (timeStamp : Int) : Except String (List SFBScheduledAudioSlice) :=
  match firstAvailableIdx pool with
  | none => Except.error noAvailableSlicesMsg
  | some i =>
      Except.ok (pool.set i
        { (pool.getD i SFBScheduledAudioSlice.init).Clear with
            timeStamp := timeStamp
            numberFrames := (abl.headD []).length
            bufferList := some abl
            available := false })

/-- `SFBAUv2IO::ScheduledAudioSliceCompletionProc` (SFBAUv2IO.cpp lines
1256-1260): sets the slice's `mAvailable` flag to true; the `userData`
engine pointer is unused (commented out in the source). -/
def ScheduledAudioSliceCompletionProc (slice : SFBScheduledAudioSlice) : SFBScheduledAudioSlice :=
  { slice with available := true }

/-- The completion callback applied to slice `i` of a pool. -/
def completePool (pool : List SFBScheduledAudioSlice) (i : Nat) : List SFBScheduledAudioSlice :=
  pool.set i (ScheduledAudioSliceCompletionProc (pool.getD i SFBScheduledAudioSlice.init))

/-- The completion callback at engine level: only slice `i` of the pool is
touched; every other engine field is left alone (the proc never dereferences
its `userData`). -/
def SFBAUv2IOState.CompleteSlice (s : SFBAUv2IOState) (i : Nat) : SFBAUv2IOState :=
  { s with scheduledAudioSlices := completePool s.scheduledAudioSlices i }

/-- Slice-pool states reachable through construction, (successful) `PlayAt`
scheduling, and completion of an in-flight slice. -/
inductive PoolReachable : List SFBScheduledAudioSlice → Prop
  | init : PoolReachable initialPool
  | play (pool : List SFBScheduledAudioSlice) (abl : List (List Int)) (timeStamp : Int)
      (pool' : List SFBScheduledAudioSlice) (h : PoolReachable pool)
      (hp : PlayAt pool abl timeStamp = Except.ok pool') : PoolReachable pool'
  | complete (pool : List SFBScheduledAudioSlice) (i : Nat) (h : PoolReachable pool)
      (hi : (pool.getD i SFBScheduledAudioSlice.init).available = false) :
      PoolReachable (completePool pool i)

/-- Result of the capture render callback of the SFBAUv2IO.cpp revision
(lines 1197-1214): the engine state, the returned `OSStatus`, and which
diagnostic logs were emitted. -/
structure InputRenderResult where
  state : SFBAUv2IOState
  status : Int
  renderErrorLogged : Bool
  writeFailureLogged : Bool

/-- The engine state common to both capture-callback revisions just before
the ring-buffer write: `mFirstInputSampleTime` (`mFirstInputTime` in
part_000) recorded if still unset, and the scratch `mInputBufferList` reset
and then filled by `AudioUnitRender` (the hardware render is external: its
produced data is an input). -/
def SFBAUv2IOState.inputCallbackPre (s : SFBAUv2IOState) (inSampleTime : Int)
    (renderedData : List Int) : SFBAUv2IOState :=
  { (if s.firstInputSampleTime < 0 then
       { s with firstInputSampleTime := inSampleTime } else s) with
    inputBufferList := renderedData }

/-- `SFBAUv2IO::InputRenderCallback`, SFBAUv2IO.cpp revision (lines
1197-1214): records `mFirstInputSampleTime` on the first invocation, resets
the scratch buffer and renders the hardware input into it (the render status
is an input), logs a render failure instead of throwing, always attempts the
ring-buffer write of the scratch buffer (logging a write failure), and
returns the render status. -/
def SFBAUv2IOState.InputRenderCallback (s : SFBAUv2IOState) (inSampleTime : Int)
    (inNumberFrames : Nat) (renderStatus : Int) (renderedData : List Int) : InputRenderResult :=
  match (s.inputCallbackPre inSampleTime renderedData).inputRingBuffer.Write
      (s.inputCallbackPre inSampleTime renderedData).inputBufferList
      inNumberFrames inSampleTime with
  | some rb =>
      { state := { s.inputCallbackPre inSampleTime renderedData with inputRingBuffer := rb }
        status := renderStatus
        renderErrorLogged := decide (renderStatus ≠ 0), writeFailureLogged := false }
  | none =>
      { state := s.inputCallbackPre inSampleTime renderedData, status := renderStatus
        renderErrorLogged := decide (renderStatus ≠ 0), writeFailureLogged := true }

/-- Message of the `SFBCAException` thrown by the part_000 revision's capture
callback when the hardware render fails. -/
def audioUnitRenderErrMsg : String := "AudioUnitRender"

/-- Result of the capture render callback of the part_000 revision (lines
648-663): `thrown` is the exception escaping the callback, if any; `status`
is the returned `OSStatus` when the callback returns normally;
`writeAttempted` records whether the ring-buffer write was reached. -/
structure InputRenderResultPrev where
  state : SFBAUv2IOState
  thrown : Option String
  status : Option Int
  writeAttempted : Bool
  writeFailureLogged : Bool

/-- `SFBAUv2IO::InputRenderCallback`, part_000 revision (lines 648-663):
records `mFirstInputTime` on the first invocation, renders the hardware
input, and calls `SFBCAException::ThrowIfError` on the result — a render
failure propagates an exception out of the real-time callback and the
ring-buffer write is never reached.  On success the write is attempted (a
failure only logged) and `noErr` is returned. -/
def SFBAUv2IOState.InputRenderCallbackPrev (s : SFBAUv2IOState) (inSampleTime : Int)
    (inNumberFrames : Nat) (renderStatus : Int) (renderedData : List Int) : InputRenderResultPrev :=
  if renderStatus ≠ 0 then
    { state := s.inputCallbackPre inSampleTime renderedData
      thrown := some audioUnitRenderErrMsg, status := none
      writeAttempted := false, writeFailureLogged := false }
  else
    match (s.inputCallbackPre inSampleTime renderedData).inputRingBuffer.Write
        (s.inputCallbackPre inSampleTime renderedData).inputBufferList
        inNumberFrames inSampleTime with
    | some rb =>
        { state := { s.inputCallbackPre inSampleTime renderedData with inputRingBuffer := rb }
          thrown := none, status := some 0
          writeAttempted := true, writeFailureLogged := false }
    | none =>
        { state := s.inputCallbackPre inSampleTime renderedData, thrown := none, status := some 0
          writeAttempted := true, writeFailureLogged := true }

/-- A concrete ring buffer used in witnesses: capacity 1024, one write has
occurred, bounds `[10, 50)`, silent contents. -/
def ring0 : CARingBuffer :=
  { capacity := 1024, hasWritten := true, startTime := 10, endTime := 50
    sample := fun _ => 0 }

/-- A concrete stopped engine state used in witnesses. -/
def engine0 : SFBAUv2IOState :=
  { firstInputSampleTime := -1, firstOutputSampleTime := -1, throughLatency := 512
    inputRunning := false, outputRunning := false, inputBufferList := []
    inputRingBuffer := ring0, scheduledAudioSlices := initialPool }

/-- A concrete synchronizing engine state used in witnesses: input first seen
at sample time 1000 (the spec's §8 scenario), output not yet seen. -/
def engine1 : SFBAUv2IOState :=
  { engine0 with firstInputSampleTime := 1000 }

/-- Decoded file contents used in the slice-pool scenarios: two channels of
two frames. -/
def abl0 : List (List Int) := [[1, 2], [3, 4]]

/-- The pool after scheduling `abl0` at time 0 from the initial pool: slice 0
is in-flight with the decoded buffer. -/
def pool1 : List SFBScheduledAudioSlice :=
  initialPool.set 0
    { timeStamp := 0, numberFrames := 2, bufferList := some abl0, available := false }

/-- `pool1` after the completion callback fires for slice 0. -/
def pool2 : List SFBScheduledAudioSlice := completePool pool1 0

/-! ## Helper lemmas -/

/-- Every byte of every buffer produced by `zeroFill` is zero. -/
theorem mem_zeroFill {bs : List AudioBuffer} {b : AudioBuffer} (hb : b ∈ zeroFill bs) :
    ∀ v ∈ b.data, v = 0 := by
  rcases List.mem_map.mp hb with ⟨a, _, rfl⟩
  intro v hv
  exact List.eq_of_mem_replicate hv

/-- The mixer-input pull callback never touches the two first-sample-times. -/
theorem mixer_preserves_first_times (s : SFBAUv2IOState) (t : Int) (n : Nat)
    (ioData : List AudioBuffer) :
    (s.MixerInputRenderCallback t n ioData).state.firstInputSampleTime = s.firstInputSampleTime ∧
    (s.MixerInputRenderCallback t n ioData).state.firstOutputSampleTime = s.firstOutputSampleTime := by
  unfold SFBAUv2IOState.MixerInputRenderCallback
  split
  · exact ⟨rfl, rfl⟩
  · split
    · exact ⟨rfl, rfl⟩
    · exact ⟨rfl, rfl⟩

/-- Once both first-sample-times are nonnegative, no output callback of a run
ever takes the one-time latency-adjustment branch again. -/
theorem adjustCount_eq_zero (s : SFBAUv2IOState) (ts : List (Int × Nat))
    (hin : 0 ≤ s.firstInputSampleTime) (hout : 0 ≤ s.firstOutputSampleTime) :
    adjustCount s ts = 0 := by
  induction ts generalizing s with
  | nil => rfl
  | cons tn rest ih =>
      have hni : ¬ s.firstInputSampleTime < 0 := not_lt.mpr hin
      have hno : ¬ s.firstOutputSampleTime < 0 := not_lt.mpr hout
      have hstep : outputStep s tn = (s.MixerInputRenderCallback tn.1 tn.2 []).state := by
        unfold outputStep SFBAUv2IOState.OutputRenderCallback
        rw [if_neg hni, if_neg hno]
      have hadj : (s.OutputRenderCallback tn.1 tn.2 []).latencyAdjusted = false := by
        unfold SFBAUv2IOState.OutputRenderCallback
        rw [if_neg hni, if_neg hno]
      unfold adjustCount
      rw [hadj, hstep]
      simp only [if_neg Bool.false_ne_true, Nat.zero_add]
      exact ih _ ((mixer_preserves_first_times s tn.1 tn.2 []).1 ▸ hin)
        ((mixer_preserves_first_times s tn.1 tn.2 []).2 ▸ hout)

/-- `firstAvailableIdx` returns `none` exactly when no slice is available. -/
theorem firstAvailableIdx_eq_none_iff (pool : List SFBScheduledAudioSlice) :
    firstAvailableIdx pool = none ↔ ∀ sl ∈ pool, sl.available = false := by
  induction pool with
  | nil => simp [firstAvailableIdx]
  | cons sl rest ih =>
      unfold firstAvailableIdx
      by_cases h : sl.available = true
      · simp [h]
      · have h' : sl.available = false := by simpa using h
        rw [if_neg h]
        constructor
        · intro hn x hx
          rcases List.mem_cons.mp hx with rfl | hx
          · exact h'
          · have hrest : firstAvailableIdx rest = none := by
              cases hrest : firstAvailableIdx rest with
              | none => rfl
              | some k => rw [hrest] at hn; simp at hn
            exact ih.mp hrest x hx
        · intro hall
          rw [ih.mpr fun x hx => hall x (List.mem_cons.mpr (Or.inr hx))]
          rfl

/-- If index `i` is available and every smaller index is not, the scan of
`PlayAt` returns `i`. -/
theorem firstAvailableIdx_eq_some (pool : List SFBScheduledAudioSlice) (i : Nat)
    (hlen : i < pool.length)
    (hi : (pool.getD i SFBScheduledAudioSlice.init).available = true)
    (hj : ∀ j, j < i → (pool.getD j SFBScheduledAudioSlice.init).available = false) :
    firstAvailableIdx pool = some i := by
  induction pool generalizing i with
  | nil => simp at hlen
  | cons sl rest ih =>
      cases i with
      | zero =>
          have hsl : sl.available = true := by simpa using hi
          unfold firstAvailableIdx
          rw [if_pos hsl]
      | succ k =>
          have h0 : sl.available = false := by
            have := hj 0 (Nat.succ_pos k)
            simpa using this
          unfold firstAvailableIdx
          rw [if_neg (by simp [h0])]
          have hk : firstAvailableIdx rest = some k := by
            apply ih
            · simpa using hlen
            · simpa using hi
            · intro j hjk
              have := hj (j + 1) (Nat.succ_lt_succ hjk)
              simpa using this
          rw [hk]
          rfl

/-- `List.getD` after `List.set` at a different index is unchanged. -/
theorem getD_set_ne {α : Type} [Inhabited α] (l : List α) (i j : Nat) (b d : α)
    (h : j ≠ i) : (l.set i b).getD j d = l.getD j d := by
  induction l generalizing i j with
  | nil => simp
  | cons x xs ih =>
      cases i with
      | zero =>
          cases j with
          | zero => exact absurd rfl h
          | succ k => simp [List.set, List.getD]
      | succ m =>
          cases j with
          | zero => simp [List.set, List.getD]
          | succ k =>
              simp only [List.set, List.getD_cons_succ]
              exact ih m k (fun hk => h (by omega))

/-! ## Claim theorems -/

/-- Claim C1: whenever the output render callback runs while
`mFirstInputSampleTime` or `mFirstOutputSampleTime` is still unset
(negative), it zero-fills every output buffer, sets the output-is-silence
action flag, and returns without rendering the mixer, so the mixer-pull path
is never invoked before both first-sample-times are set. -/
theorem outputRenderCallback_silent_before_sync (s : SFBAUv2IOState) (t : Int)
    (n : Nat) (ioData : List AudioBuffer)
    (h : s.firstInputSampleTime < 0 ∨ s.firstOutputSampleTime < 0) :
    (s.OutputRenderCallback t n ioData).ioData = zeroFill ioData ∧
    (∀ b ∈ (s.OutputRenderCallback t n ioData).ioData, ∀ v ∈ b.data, v = 0) ∧
    (s.OutputRenderCallback t n ioData).outputIsSilence = true ∧
    (s.OutputRenderCallback t n ioData).mixerRendered = false := by
  by_cases h1 : s.firstInputSampleTime < 0
  · unfold SFBAUv2IOState.OutputRenderCallback
    rw [if_pos h1]
    exact ⟨rfl, fun b hb => mem_zeroFill hb, rfl, rfl⟩
  · have h2 : s.firstOutputSampleTime < 0 := h.resolve_left h1
    unfold SFBAUv2IOState.OutputRenderCallback
    rw [if_neg h1, if_pos h2]
    exact ⟨rfl, fun b hb => mem_zeroFill hb, rfl, rfl⟩

/-- Witness for C1: a concrete engine state with both first-sample-times
unset emits zeroed silence and does not render the mixer. -/
theorem outputRenderCallback_silent_before_sync_witness :
    (engine0.firstInputSampleTime < 0 ∨ engine0.firstOutputSampleTime < 0) ∧
    ((engine0.OutputRenderCallback 100 4 [⟨[7, 7]⟩]).ioData = zeroFill [⟨[7, 7]⟩] ∧
     (∀ b ∈ (engine0.OutputRenderCallback 100 4 [⟨[7, 7]⟩]).ioData, ∀ v ∈ b.data, v = 0) ∧
     (engine0.OutputRenderCallback 100 4 [⟨[7, 7]⟩]).outputIsSilence = true ∧
     (engine0.OutputRenderCallback 100 4 [⟨[7, 7]⟩]).mixerRendered = false) :=
  ⟨Or.inl (by decide),
   outputRenderCallback_silent_before_sync engine0 100 4 [⟨[7, 7]⟩] (Or.inl (by decide))⟩

/-- Claim C2: on the first output render callback that finds
`mFirstInputSampleTime` set and `mFirstOutputSampleTime` unset, the callback
records `mFirstOutputSampleTime` as the callback's sample time, adjusts
`mThroughLatency` by exactly `delta = mFirstOutputSampleTime -
mFirstInputSampleTime`, still emits silence for that callback (mixer not
rendered), and — provided the recorded sample time is a valid nonnegative
absolute sample-time — no callback of the rest of the run ever takes the
adjustment branch again, so the adjustment happens exactly once per run. -/
theorem outputRenderCallback_first_output (s : SFBAUv2IOState) (t : Int)
    (n : Nat) (ioData : List AudioBuffer) (rest : List (Int × Nat))
    (hin : 0 ≤ s.firstInputSampleTime) (hout : s.firstOutputSampleTime < 0)
    (ht : 0 ≤ t) :
    (s.OutputRenderCallback t n ioData).state.firstOutputSampleTime = t ∧
    (s.OutputRenderCallback t n ioData).state.throughLatency =
      s.throughLatency + (t - s.firstInputSampleTime) ∧
    (s.OutputRenderCallback t n ioData).latencyAdjusted = true ∧
    (s.OutputRenderCallback t n ioData).ioData = zeroFill ioData ∧
    (s.OutputRenderCallback t n ioData).outputIsSilence = true ∧
    (s.OutputRenderCallback t n ioData).mixerRendered = false ∧
    adjustCount (s.OutputRenderCallback t n ioData).state rest = 0 := by
  have h1 : ¬ s.firstInputSampleTime < 0 := not_lt.mpr hin
  have heq : s.OutputRenderCallback t n ioData =
      { state := { s with
          firstOutputSampleTime := t
          throughLatency := s.throughLatency + (t - s.firstInputSampleTime) }
        ioData := zeroFill ioData, outputIsSilence := true
        mixerRendered := false, latencyAdjusted := true } := by
    unfold SFBAUv2IOState.OutputRenderCallback
    rw [if_neg h1, if_pos hout]
  rw [heq]
  refine ⟨rfl, rfl, rfl, rfl, rfl, rfl, ?_⟩
  exact adjustCount_eq_zero _ rest hin ht

/-- Witness for C2, the spec's §8 scenario: input first seen at sample time
1000 and output first seen at 1200 changes `mThroughLatency` (here 512) by
exactly 200, to 712, with silence still emitted; two further callbacks
perform no further adjustment. -/
theorem outputRenderCallback_first_output_witness :
    (0 ≤ engine1.firstInputSampleTime ∧ engine1.firstOutputSampleTime < 0 ∧
       (0 : Int) ≤ 1200) ∧
    ((engine1.OutputRenderCallback 1200 4 []).state.firstOutputSampleTime = 1200 ∧
     (engine1.OutputRenderCallback 1200 4 []).state.throughLatency =
       engine1.throughLatency + (1200 - engine1.firstInputSampleTime) ∧
     (engine1.OutputRenderCallback 1200 4 []).latencyAdjusted = true ∧
     (engine1.OutputRenderCallback 1200 4 []).ioData = zeroFill [] ∧
     (engine1.OutputRenderCallback 1200 4 []).outputIsSilence = true ∧
     (engine1.OutputRenderCallback 1200 4 []).mixerRendered = false ∧
     adjustCount (engine1.OutputRenderCallback 1200 4 []).state
       [(1712, 4), (2224, 4)] = 0) ∧
    (engine1.OutputRenderCallback 1200 4 []).state.throughLatency = 712 :=
  ⟨⟨by decide, by decide, by decide⟩,
   outputRenderCallback_first_output engine1 1200 4 [] [(1712, 4), (2224, 4)]
     (by decide) (by decide) (by decide),
   by decide⟩

/-- Counterexample for claim C4: the claim asserts that the two revisions of
the first-output-callback latency correction disagree for some pair of first
input and first output sample times; in fact `lat + (fo - fi)` and
`lat - (fi - fo)` coincide for every pair, so no such pair exists. -/
theorem outputLatencyAdjust_no_disagreement :
    ¬ ∃ lat fi fo : Int,
        outputLatencyAdjustCpp lat fi fo ≠ outputLatencyAdjustPrev lat fi fo := by
  rintro ⟨lat, fi, fo, hne⟩
  exact hne (by unfold outputLatencyAdjustCpp outputLatencyAdjustPrev; ring)

/-- Claim C4 (amended): the two revisions of the first-output-callback
latency correction — `delta = firstOutputSampleTime - firstInputSampleTime`
with `throughLatency += delta`, and `delta = firstInputTime -
firstOutputTime` with `throughLatency -= delta` — compute the same adjusted
`throughLatency` for every pair of first input and first output sample
times. -/
theorem outputLatencyAdjust_agree (lat fi fo : Int) :
    outputLatencyAdjustCpp lat fi fo = outputLatencyAdjustPrev lat fi fo := by
  unfold outputLatencyAdjustCpp outputLatencyAdjustPrev
  ring

/-- Claim C3: every invocation of the mixer-input pull callback reads the
ring buffer at `adjustedTime = requestedTime - throughLatency` for the
requested frame count (the case split below is on exactly that read); when
the read fails, the callback zero-fills the destination buffers, flags
silence, and, if `GetTimeBounds` succeeds, sets
`throughLatency = requestedTime - startTime`; when the read succeeds the
engine state — in particular `throughLatency` — is unchanged. -/
theorem mixerInputRenderCallback_spec (s : SFBAUv2IOState) (t : Int) (n : Nat)
    (ioData : List AudioBuffer) :
    (s.inputRingBuffer.Read n (t - s.throughLatency) = true →
       (s.MixerInputRenderCallback t n ioData).state = s ∧
       (s.MixerInputRenderCallback t n ioData).state.throughLatency = s.throughLatency ∧
       (s.MixerInputRenderCallback t n ioData).ioData =
         s.inputRingBuffer.readData (t - s.throughLatency) ioData) ∧
    (s.inputRingBuffer.Read n (t - s.throughLatency) = false →
       (s.MixerInputRenderCallback t n ioData).ioData = zeroFill ioData ∧
       (∀ b ∈ (s.MixerInputRenderCallback t n ioData).ioData, ∀ v ∈ b.data, v = 0) ∧
       (s.MixerInputRenderCallback t n ioData).outputIsSilence = true ∧
       (∀ st en, s.inputRingBuffer.GetTimeBounds = some (st, en) →
          (s.MixerInputRenderCallback t n ioData).state.throughLatency = t - st) ∧
       (s.inputRingBuffer.GetTimeBounds = none →
          (s.MixerInputRenderCallback t n ioData).state.throughLatency = s.throughLatency)) := by
  constructor
  · intro hr
    unfold SFBAUv2IOState.MixerInputRenderCallback
    rw [if_pos hr]
    exact ⟨rfl, rfl, rfl⟩
  · intro hr
    unfold SFBAUv2IOState.MixerInputRenderCallback
    rw [hr]
    simp only [Bool.false_eq_true, if_false]
    cases hb : s.inputRingBuffer.GetTimeBounds with
    | none =>
        exact ⟨rfl, fun b hb' => mem_zeroFill hb', rfl,
          fun st en h => Option.noConfusion h, fun _ => rfl⟩
    | some p =>
        cases p with
        | mk st0 en0 =>
            refine ⟨rfl, fun b hb' => mem_zeroFill hb', rfl, ?_, ?_⟩
            · intro st en h
              cases h
              rfl
            · intro h
              exact Option.noConfusion h

/-- Witness for C3: with ring bounds `[10, 50)` and `throughLatency = 512`, a
pull at sample time 100 reads at adjusted time `100 - 512 = -412`, misses,
zero-fills its two-byte buffer, flags silence, and re-derives
`throughLatency = 100 - 10 = 90`. -/
theorem mixerInputRenderCallback_spec_witness :
    (engine1.inputRingBuffer.Read 4 (100 - engine1.throughLatency) = false) ∧
    ((engine1.MixerInputRenderCallback 100 4 [⟨[7, 7]⟩]).ioData = zeroFill [⟨[7, 7]⟩] ∧
     (engine1.MixerInputRenderCallback 100 4 [⟨[7, 7]⟩]).outputIsSilence = true ∧
     (engine1.MixerInputRenderCallback 100 4 [⟨[7, 7]⟩]).state.throughLatency = 100 - 10) := by
  have h := (mixerInputRenderCallback_spec engine1 100 4 [⟨[7, 7]⟩]).2 (by decide)
  exact ⟨by decide, h.1, h.2.2.1, h.2.2.2.1 10 50 (by decide)⟩

/-- Claim C10: immediately after a mixer-pull read miss in which
`GetTimeBounds` succeeds, the new `throughLatency` satisfies
`requestedTime - throughLatency = startTime`: a repeated read for the same
requested sample time would begin exactly at the ring buffer's start
bound. -/
theorem mixer_resync_aligns_to_start (s : SFBAUv2IOState) (t : Int) (n : Nat)
    (ioData : List AudioBuffer) (st en : Int)
    (hmiss : s.inputRingBuffer.Read n (t - s.throughLatency) = false)
    (hb : s.inputRingBuffer.GetTimeBounds = some (st, en)) :
    t - (s.MixerInputRenderCallback t n ioData).state.throughLatency = st := by
  unfold SFBAUv2IOState.MixerInputRenderCallback
  rw [hmiss]
  simp only [Bool.false_eq_true, if_false]
  rw [hb]
  ring

/-- Witness for C10: in the concrete miss of the C3 scenario the re-derived
latency satisfies `100 - throughLatency = 10`, the ring's start bound. -/
theorem mixer_resync_aligns_to_start_witness :
    (engine1.inputRingBuffer.Read 4 (100 - engine1.throughLatency) = false ∧
     engine1.inputRingBuffer.GetTimeBounds = some (10, 50)) ∧
    100 - (engine1.MixerInputRenderCallback 100 4 []).state.throughLatency = 10 :=
  ⟨⟨by decide, by decide⟩,
   mixer_resync_aligns_to_start engine1 100 4 [] 10 50 (by decide) (by decide)⟩

/-- Claim C5: `PlayAt` scans the slice descriptors in index order and takes
the first whose availability flag is true, flipping that flag to false and
installing the decoded buffer; it raises a synchronous error to the caller,
scheduling nothing, if and only if no slice is available. -/
theorem playAt_first_available (pool : List SFBScheduledAudioSlice)
    (abl : List (List Int)) (timeStamp : Int) :
    (PlayAt pool abl timeStamp = Except.error noAvailableSlicesMsg ↔
       ∀ sl ∈ pool, sl.available = false) ∧
    (∀ i, i < pool.length →
       (pool.getD i SFBScheduledAudioSlice.init).available = true →
       (∀ j, j < i → (pool.getD j SFBScheduledAudioSlice.init).available = false) →
       PlayAt pool abl timeStamp = Except.ok (pool.set i
         { (pool.getD i SFBScheduledAudioSlice.init).Clear with
             timeStamp := timeStamp
             numberFrames := (abl.headD []).length
             bufferList := some abl
             available := false })) := by
  constructor
  · constructor
    · intro he
      apply (firstAvailableIdx_eq_none_iff pool).mp
      cases hf : firstAvailableIdx pool with
      | none => rfl
      | some i =>
          unfold PlayAt at he
          rw [hf] at he
          cases he
    · intro hall
      unfold PlayAt
      rw [(firstAvailableIdx_eq_none_iff pool).mpr hall]
  · intro i hlen hi hj
    unfold PlayAt
    rw [firstAvailableIdx_eq_some pool i hlen hi hj]

/-- Witness for C5: from a pool whose slices 0 and 1 are in-flight and slice
2 is available, `PlayAt` picks slice 2 (the first available), flips it to
unavailable with the decoded buffer installed; from a fully in-flight pool it
raises the capacity error. -/
theorem playAt_first_available_witness :
    ((2 : Nat) < (initialPool.set 0 { SFBScheduledAudioSlice.init with
          bufferList := some abl0, available := false } |>.set 1
          { SFBScheduledAudioSlice.init with bufferList := some abl0, available := false }).length ∧
      PlayAt (initialPool.set 0 { SFBScheduledAudioSlice.init with
          bufferList := some abl0, available := false } |>.set 1
          { SFBScheduledAudioSlice.init with bufferList := some abl0, available := false })
        abl0 7 = Except.ok
          ((initialPool.set 0 { SFBScheduledAudioSlice.init with
              bufferList := some abl0, available := false } |>.set 1
              { SFBScheduledAudioSlice.init with bufferList := some abl0, available := false }).set 2
            { timeStamp := 7, numberFrames := 2, bufferList := some abl0, available := false })) ∧
    PlayAt (List.replicate 16 { SFBScheduledAudioSlice.init with
        bufferList := some abl0, available := false }) abl0 7 =
      Except.error noAvailableSlicesMsg := by
  refine ⟨⟨by decide, ?_⟩, ?_⟩
  · have h := (playAt_first_available (initialPool.set 0 { SFBScheduledAudioSlice.init with
        bufferList := some abl0, available := false } |>.set 1
        { SFBScheduledAudioSlice.init with bufferList := some abl0, available := false })
      abl0 7).2 2 (by decide) (by decide) (by decide)
    exact h
  · exact (playAt_first_available (List.replicate 16 { SFBScheduledAudioSlice.init with
        bufferList := some abl0, available := false }) abl0 7).1.mpr (by decide)

/-- Counterexample for claim C6: the claim's invariant "a slice is either
available with a null buffer-list pointer or in-flight with a non-null
buffer" fails on a reachable pool state.  Scheduling a file from the initial
pool puts slice 0 in-flight with its decoded buffer; when the completion
callback then fires, it only flips the availability flag (it does not free
`mBufferList`), leaving slice 0 available with a non-null buffer list. -/
theorem pool_slice_invariant_counterexample :
    PoolReachable pool2 ∧
    (pool2.getD 0 SFBScheduledAudioSlice.init).available = true ∧
    (pool2.getD 0 SFBScheduledAudioSlice.init).bufferList ≠ none := by
  refine ⟨?_, by decide, by decide⟩
  have h1 : PoolReachable pool1 :=
    PoolReachable.play initialPool abl0 0 pool1 PoolReachable.init rfl
  exact PoolReachable.complete pool1 0 h1 (by decide)

/-- Claim C6 (amended): in every pool state reachable through construction,
`PlayAt` scheduling and completion, every in-flight slice (availability
false) has a non-null buffer list; an available slice, however, may retain a
non-null buffer after its completion fires, because the completion callback
only flips the flag — the buffer is freed only when the slice is reused by
`PlayAt` (via `Clear`) or destroyed. -/
theorem pool_inflight_slice_has_buffer (pool : List SFBScheduledAudioSlice)
    (h : PoolReachable pool) :
    ∀ sl ∈ pool, sl.available = false → sl.bufferList ≠ none := by
  induction h with
  | init =>
      intro sl hsl hav
      have := List.eq_of_mem_replicate hsl
      rw [this] at hav
      cases hav
  | play pool abl timeStamp pool' hp hplay ih =>
      intro sl hsl hav
      unfold PlayAt at hplay
      cases hf : firstAvailableIdx pool with
      | none => rw [hf] at hplay; cases hplay
      | some i =>
          rw [hf] at hplay
          cases hplay
          rcases List.mem_or_eq_of_mem_set hsl with hmem | rfl
          · exact ih sl hmem hav
          · simp [SFBScheduledAudioSlice.Clear]
  | complete pool i hp hi ih =>
      intro sl hsl hav
      rcases List.mem_or_eq_of_mem_set hsl with hmem | rfl
      · exact ih sl hmem hav
      · cases hav

/-- Witness for the amended C6: slice 0 of the reachable pool `pool1` is
in-flight and indeed carries a non-null buffer list. -/
theorem pool_inflight_slice_has_buffer_witness :
    ({ timeStamp := 0, numberFrames := 2, bufferList := some abl0,
       available := false } : SFBScheduledAudioSlice) ∈ pool1 ∧
    ({ timeStamp := 0, numberFrames := 2, bufferList := some abl0,
       available := false } : SFBScheduledAudioSlice).bufferList ≠ none := by
  refine ⟨by decide, ?_⟩
  exact pool_inflight_slice_has_buffer pool1
    (PoolReachable.play initialPool abl0 0 pool1 PoolReachable.init rfl)
    _ (by decide) (by decide)

/-- Claim C7: the slice-completion callback only flips the slice's
availability flag to true; it changes no other field of the slice (in
particular it does not free the buffer list), and at engine level it touches
nothing but slice `i` of the pool. -/
theorem completionProc_only_flips_flag (sl : SFBScheduledAudioSlice)
    (s : SFBAUv2IOState) (i : Nat) :
    (ScheduledAudioSliceCompletionProc sl).available = true ∧
    (ScheduledAudioSliceCompletionProc sl).timeStamp = sl.timeStamp ∧
    (ScheduledAudioSliceCompletionProc sl).numberFrames = sl.numberFrames ∧
    (ScheduledAudioSliceCompletionProc sl).bufferList = sl.bufferList ∧
    (s.CompleteSlice i).firstInputSampleTime = s.firstInputSampleTime ∧
    (s.CompleteSlice i).firstOutputSampleTime = s.firstOutputSampleTime ∧
    (s.CompleteSlice i).throughLatency = s.throughLatency ∧
    (s.CompleteSlice i).inputRunning = s.inputRunning ∧
    (s.CompleteSlice i).outputRunning = s.outputRunning ∧
    (s.CompleteSlice i).inputBufferList = s.inputBufferList ∧
    (s.CompleteSlice i).inputRingBuffer = s.inputRingBuffer ∧
    (∀ j, j ≠ i →
       (s.CompleteSlice i).scheduledAudioSlices.getD j SFBScheduledAudioSlice.init =
         s.scheduledAudioSlices.getD j SFBScheduledAudioSlice.init) := by
  refine ⟨rfl, rfl, rfl, rfl, rfl, rfl, rfl, rfl, rfl, rfl, rfl, ?_⟩
  intro j hj
  unfold SFBAUv2IOState.CompleteSlice completePool
  exact getD_set_ne _ i j _ _ hj

/-- Witness for C7: completing slice 0 of a concrete engine leaves slice 1
and every non-pool engine field untouched, and the completed slice keeps its
buffer list. -/
theorem completionProc_only_flips_flag_witness :
    (ScheduledAudioSliceCompletionProc
        { timeStamp := 0, numberFrames := 2, bufferList := some abl0, available := false }).available = true ∧
    (ScheduledAudioSliceCompletionProc
        { timeStamp := 0, numberFrames := 2, bufferList := some abl0, available := false }).bufferList = some abl0 ∧
    (1 : Nat) ≠ 0 ∧
    (SFBAUv2IOState.CompleteSlice { engine0 with scheduledAudioSlices := pool1 }
        0).scheduledAudioSlices.getD 1 SFBScheduledAudioSlice.init =
      pool1.getD 1 SFBScheduledAudioSlice.init := by
  have h := completionProc_only_flips_flag
    { timeStamp := 0, numberFrames := 2, bufferList := some abl0, available := false }
    { engine0 with scheduledAudioSlices := pool1 } 0
  exact ⟨h.1, h.2.2.2.1, by decide, h.2.2.2.2.2.2.2.2.2.2.2 1 (by decide)⟩

/-- Counterexample for claim C8: the claim asserts for every invocation of
the capture render callback that a render failure is logged, that no
exception propagates out of the callback, and that the ring-buffer write is
still attempted; the part_000 revision (lines 648-663, one of the claim's
two cited callbacks) instead calls `SFBCAException::ThrowIfError` on the
render result, so a failing hardware render (status -50) propagates an
exception out of the real-time callback and the ring-buffer write is never
reached. -/
theorem inputRenderCallbackPrev_throws :
    (SFBAUv2IOState.InputRenderCallbackPrev engine0 100 4 (-50) [0, 0, 0, 0]).thrown =
      some audioUnitRenderErrMsg ∧
    (SFBAUv2IOState.InputRenderCallbackPrev engine0 100 4 (-50) [0, 0, 0, 0]).writeAttempted =
      false :=
  ⟨rfl, rfl⟩

/-- Helper: the pre-write capture state keeps the ring buffer untouched and
holds the rendered data in the scratch buffer. -/
theorem inputCallbackPre_fields (s : SFBAUv2IOState) (t : Int) (d : List Int) :
    (s.inputCallbackPre t d).inputRingBuffer = s.inputRingBuffer ∧
    (s.inputCallbackPre t d).inputBufferList = d := by
  unfold SFBAUv2IOState.inputCallbackPre
  split
  · exact ⟨rfl, rfl⟩
  · exact ⟨rfl, rfl⟩

/-- Claim C8 (amended): in the SFBAUv2IO.cpp revision of the capture render
callback (lines 1197-1214), a hardware render failure or ring-buffer write
failure is logged and the callback still returns its result normally, and
the ring-buffer write is attempted with the rendered data even after a
render failure (best-effort capture); in the part_000 revision a render
failure instead throws out of the callback and skips the write (see the
counterexample), while a write failure there is still only logged. -/
theorem inputRenderCallback_best_effort (s : SFBAUv2IOState) (t : Int) (n : Nat)
    (renderStatus : Int) (renderedData : List Int) :
    (s.InputRenderCallback t n renderStatus renderedData).status = renderStatus ∧
    (renderStatus ≠ 0 →
       (s.InputRenderCallback t n renderStatus renderedData).renderErrorLogged = true) ∧
    (∀ rb, s.inputRingBuffer.Write renderedData n t = some rb →
       (s.InputRenderCallback t n renderStatus renderedData).state.inputRingBuffer = rb) ∧
    (s.inputRingBuffer.Write renderedData n t = none →
       (s.InputRenderCallback t n renderStatus renderedData).writeFailureLogged = true ∧
       (s.InputRenderCallback t n renderStatus renderedData).state.inputRingBuffer =
         s.inputRingBuffer) := by
  obtain ⟨hring, hbuf⟩ := inputCallbackPre_fields s t renderedData
  unfold SFBAUv2IOState.InputRenderCallback
  rw [hring, hbuf]
  cases hw : s.inputRingBuffer.Write renderedData n t with
  | some rb0 =>
      refine ⟨rfl, fun hr => decide_eq_true hr, ?_, ?_⟩
      · intro rb hrb
        cases hrb
        rfl
      · intro hnone
        exact Option.noConfusion hnone
  | none =>
      refine ⟨rfl, fun hr => decide_eq_true hr, ?_, fun _ => ⟨rfl, hring⟩⟩
      intro rb hrb
      exact Option.noConfusion hrb

/-- Witness for the amended C8: a failing render (status -50) together with
an oversized write request (2000 frames against capacity 1024, so the write
fails): the callback still returns -50, logs the render error, and logs the
write failure while leaving the ring buffer as it was. -/
theorem inputRenderCallback_best_effort_witness :
    ((-50 : Int) ≠ 0 ∧ engine0.inputRingBuffer.Write [0, 0] 2000 100 = none) ∧
    ((engine0.InputRenderCallback 100 2000 (-50) [0, 0]).status = -50 ∧
     (engine0.InputRenderCallback 100 2000 (-50) [0, 0]).renderErrorLogged = true ∧
     (engine0.InputRenderCallback 100 2000 (-50) [0, 0]).writeFailureLogged = true ∧
     (engine0.InputRenderCallback 100 2000 (-50) [0, 0]).state.inputRingBuffer =
       engine0.inputRingBuffer) := by
  have h := inputRenderCallback_best_effort engine0 100 2000 (-50) [0, 0]
  have hw : engine0.inputRingBuffer.Write [0, 0] 2000 100 = none := rfl
  exact ⟨⟨by decide, hw⟩, h.1, h.2.1 (by decide), (h.2.2.2 hw).1, (h.2.2.2 hw).2⟩

/-- Claim C9: when the engine is running, `Stop` halts both hardware
directions and resets both first-sample-times to the unset sentinel `-1`,
while leaving the ring buffer, the slice pool, the through latency and the
scratch buffer unmodified; when the engine is not running, `Stop` changes
nothing. -/
theorem stop_resets_first_times (s : SFBAUv2IOState) :
    (s.IsRunning = false → s.Stop = s) ∧
    (s.IsRunning = true →
       s.Stop.inputRunning = false ∧
       s.Stop.outputRunning = false ∧
       s.Stop.firstInputSampleTime = -1 ∧
       s.Stop.firstOutputSampleTime = -1 ∧
       s.Stop.throughLatency = s.throughLatency ∧
       s.Stop.inputBufferList = s.inputBufferList ∧
       s.Stop.inputRingBuffer = s.inputRingBuffer ∧
       s.Stop.scheduledAudioSlices = s.scheduledAudioSlices) := by
  constructor
  · intro h
    unfold SFBAUv2IOState.Stop
    rw [if_pos h]
  · intro h
    unfold SFBAUv2IOState.Stop
    rw [if_neg (by rw [h]; exact fun hc => Bool.noConfusion hc)]
    exact ⟨rfl, rfl, rfl, rfl, rfl, rfl, rfl, rfl⟩

/-- Witness for C9: stopping a non-running concrete engine changes nothing;
stopping a running one clears the running flags and the first-sample-times
but keeps the slice pool. -/
theorem stop_resets_first_times_witness :
    (engine0.IsRunning = false ∧ engine0.Stop = engine0) ∧
    (({ engine0 with inputRunning := true, outputRunning := true } : SFBAUv2IOState).IsRunning = true ∧
     ({ engine0 with inputRunning := true, outputRunning := true } : SFBAUv2IOState).Stop.firstInputSampleTime = -1 ∧
     ({ engine0 with inputRunning := true, outputRunning := true } : SFBAUv2IOState).Stop.firstOutputSampleTime = -1 ∧
     ({ engine0 with inputRunning := true, outputRunning := true } : SFBAUv2IOState).Stop.scheduledAudioSlices =
       engine0.scheduledAudioSlices) := by
  have h0 := (stop_resets_first_times engine0).1 (by decide)
  have h1 := (stop_resets_first_times
    { engine0 with inputRunning := true, outputRunning := true }).2 (by decide)
  exact ⟨⟨by decide, h0⟩, by decide, h1.2.2.1, h1.2.2.2.1, h1.2.2.2.2.2.2.2⟩
